import Mathlib

/-!
Shallow embedding of `strokes_gained_calc.py`.

The numeric cells of the round table are modelled as `Option Int`:
`none` stands for an absent column or a NaN cell (pandas treats both as
"missing" via the `col in row` / `pd.notna` guards of the source), and
`some v` for a present numeric value.  Column names of the schema joiner
are modelled as their character lists (`List Char`) so that pandas'
suffix renaming on column-name collision (`suffixes=('', '_course')`)
is list append and can be reasoned about.
-/

namespace StrokesGained

/-- One row of the joined round table (`filtered_df`): the per-hole summary
record that `create_shot_by_shot_df` expands.  Fields follow the columns the
expander reads; optional numeric columns are `Option Int`. -/
structure HoleRecord where
  round_id : Int
  hole_number : Int
  par : Int
  score : Int
  putts : Int
  gir : Bool
  sand : Bool
  tee_ball_location : Option String
  approach_distance : Option Int
  yardage : Option Int
  putt_one_distance : Option Int
  putt_two_distance : Option Int
  putt_three_distance : Option Int
  putt_four_distance : Option Int
  putt_five_distance : Option Int
deriving DecidableEq, Repr

/-- One row of the expanded shot-by-shot table: the copy of the parent record
(`shot_row = row.copy()`) plus the per-stroke fields the expander assigns.
`starting_location_lie` is always assigned a string (the sentinel `"unknown"`
at shot 2 when the tee-ball lie is missing); the landing fields may be left
`None`, modelled as `none`. -/
structure StrokeRow where
  record : HoleRecord
  shot_number : Int
  starting_location_lie : String
  starting_location_distance : Option Int
  landing_location_lie : Option String
  landing_location_distance : Option Int
deriving DecidableEq, Repr

/-- One entry of the `manual_input_needed` list. -/
structure GapEntry where
  round_id : Int
  hole_number : Int
  shot_number : Int
  missing_data : String
deriving DecidableEq, Repr

/-- Dynamic column lookup on a row, modelling
`col in row and pd.notna(row[col])` followed by `row[col]` for the optional
numeric columns of `filtered_df`.  A name that is not a column of the table
(in particular any name the putting branch fabricates, such as
`"putt_2_distance"`) yields `none`. -/
def getItem (r : HoleRecord) (name : String) : Option Int :=
  if name = "approach_distance" then r.approach_distance
  else if name = "yardage" then r.yardage
  else if name = "putt_one_distance" then r.putt_one_distance
  else if name = "putt_two_distance" then r.putt_two_distance
  else if name = "putt_three_distance" then r.putt_three_distance
  else if name = "putt_four_distance" then r.putt_four_distance
  else if name = "putt_five_distance" then r.putt_five_distance
  else none

/-- The column name the putting branch fabricates:
`f'putt_{putt_number}_distance'` with `putt_number` rendered in decimal
(the source's f-string), not spelled out like the real columns
`putt_one_distance` … `putt_five_distance`. -/
def puttDistanceCol (n : Int) : String :=
  "putt_" ++ toString n ++ "_distance"

/-- Gap taxonomy: only the landing distance is missing. -/
def missingDist : String := "landing_location_distance"

/-- Gap taxonomy: both landing lie and landing distance are missing. -/
def missingBoth : String := "landing_location_lie and landing_location_distance"

/-- Starting distance of the tee shot: `approach_distance` on a par 3 when
that column is present and non-NaN, else `yardage` (`row['yardage']`, whose
NaN copies through as `none`). -/
def tee_shot_distance (row : HoleRecord) : Option Int :=
  if row.par = 3 ∧ row.approach_distance.isSome then row.approach_distance
  else row.yardage

/-- `putt_number = shot_number - (score - row['putts'])` of the putting
branch (`score` is the local variable read from `row['score']`). -/
def puttNumber (row : HoleRecord) (shot_number : Int) : Int :=
  shot_number - (row.score - row.putts)

/-- The body of the inner loop of `create_shot_by_shot_df`: the stroke row
assigned for `shot_number` of `row`, together with the gap entries appended
to `manual_input_needed` during that iteration (zero or one).  Branches in
source order: `shot_number == 1`, `elif shot_number == 2`,
`elif shot_number > row['putts'] + 1`, `else` (putting). -/
def classifyShot (row : HoleRecord) (shot_number : Int) : StrokeRow × List GapEntry :=
  if shot_number = 1 then
    if row.par = 3 then
      if row.gir then
        (⟨row, shot_number, "tee", tee_shot_distance row, some ("green"),
          row.putt_one_distance⟩, [])
      else if row.sand then
        (⟨row, shot_number, "tee", tee_shot_distance row, some ("sand"), none⟩,
         [⟨row.round_id, row.hole_number, shot_number, missingDist⟩])
      else
        (⟨row, shot_number, "tee", tee_shot_distance row, none, none⟩,
         [⟨row.round_id, row.hole_number, shot_number, missingBoth⟩])
    else
      match row.tee_ball_location with
      | some loc =>
        if (loc = "fairway" ∨ loc = "rough" ∨ loc = "trap") ∧ row.approach_distance.isSome then
          (⟨row, shot_number, "tee", tee_shot_distance row, some loc,
            row.approach_distance⟩, [])
        else
          (⟨row, shot_number, "tee", tee_shot_distance row, some loc, none⟩,
           [⟨row.round_id, row.hole_number, shot_number, missingDist⟩])
      | none =>
        (⟨row, shot_number, "tee", tee_shot_distance row, none, none⟩,
         [⟨row.round_id, row.hole_number, shot_number, missingBoth⟩])
  else if shot_number = 2 then
    (⟨row, shot_number, row.tee_ball_location.getD ("unknown"), row.approach_distance,
      none, none⟩,
     [⟨row.round_id, row.hole_number, shot_number, missingBoth⟩])
  else if shot_number > row.putts + 1 then
    (⟨row, shot_number, "approach", none, none, none⟩,
     [⟨row.round_id, row.hole_number, shot_number, missingBoth⟩])
  else
    if puttNumber row shot_number < row.putts then
      (⟨row, shot_number, "green",
        getItem row (puttDistanceCol (puttNumber row shot_number)), some ("green"),
        getItem row (puttDistanceCol (puttNumber row shot_number + 1))⟩, [])
    else
      (⟨row, shot_number, "green",
        getItem row (puttDistanceCol (puttNumber row shot_number)), some ("hole"),
        some 0⟩, [])

/-- `range(1, int(score) + 1)`: the shot numbers iterated for one record. -/
def shotNumbers (score : Int) : List Int :=
  (List.range score.toNat).map (fun i : Nat => (i : Int) + 1)

/-- The stroke rows one record contributes to `expanded_rows`, in loop order. -/
def strokeRows (row : HoleRecord) : List StrokeRow :=
  (shotNumbers row.score).map (fun n => (classifyShot row n).1)

/-- The gap entries one record contributes to `manual_input_needed`, in loop
order. -/
def manualInputFor (row : HoleRecord) : List GapEntry :=
  ((shotNumbers row.score).map (fun n => (classifyShot row n).2)).flatten

/-- `create_shot_by_shot_df`: the outer loop over the rows of `filtered_df`,
appending each record's stroke rows to `expanded_rows` and its gap entries to
`manual_input_needed` (both accumulators shared across iterations, as in the
source). -/
def create_shot_by_shot_df (filtered_df : List HoleRecord) :
    List StrokeRow × List GapEntry :=
  filtered_df.foldl
    (fun acc row => (acc.1 ++ strokeRows row, acc.2 ++ manualInputFor row))
    ([], [])

/-! ### The Schema Joiner (`create_analysis_df`), at the level of column sets

`create_analysis_df` merges the round table with the course table on
`(course_name, hole_number)` with `suffixes=('', '_course')` and then keeps,
in order, the allow-listed columns that exist in the merged frame.  Which
columns survive depends only on the two input schemas, modelled here as
lists of column names. -/

/-- Column names as character lists. -/
def chars (s : String) : List Char := s.data

/-- The `on=['course_name', 'hole_number']` merge keys. -/
def merge_keys : List (List Char) := [chars ("course_name"), chars ("hole_number")]

/-- The suffix pandas appends to a course-side column whose name collides
with a round-side column (`suffixes=('', '_course')`). -/
def suffix_course : List Char := chars ("_course")

/-- The `columns_to_keep` allow-list of `create_analysis_df`, in source
order. -/
def columns_to_keep : List (List Char) :=
  [chars ("player_name"), chars ("tournament_name"), chars ("start_date"),
   chars ("course_name"), chars ("round_id"), chars ("hole_number"),
   chars ("gir"), chars ("par"), chars ("sand"), chars ("score"),
   chars ("putts"), chars ("in_position"), chars ("tee_ball_location"),
   chars ("approach_distance"), chars ("putt_one_distance"),
   chars ("putt_two_distance"), chars ("putt_three_distance"),
   chars ("putt_four_distance"), chars ("putt_five_distance"),
   chars ("second_shot"), chars ("gir_of_third"), chars ("lay_up_location"),
   chars ("go_for_location"), chars ("yardage")]

/-- Column set of `pd.merge(left, right, on=merge_keys, how='left',
suffixes=('', '_course'))`: all left columns (key columns appear once, under
the left's name), then each non-key right column, renamed with `_course`
when it collides with a left column. -/
def mergeColumns (left right : List (List Char)) : List (List Char) :=
  left ++ (right.filter (fun c => ¬ c ∈ merge_keys)).map
    (fun c => if c ∈ left then c ++ suffix_course else c)

/-- Column set of `create_analysis_df`: the allow-listed columns present in
the merged frame, in allow-list order (`available_columns`). -/
def create_analysis_df_columns (player course : List (List Char)) :
    List (List Char) :=
  columns_to_keep.filter (fun c => c ∈ mergeColumns player course)

/-- A round-table schema containing the merge keys (used as a witness). -/
def player_columns_w : List (List Char) :=
  [chars ("course_name"), chars ("hole_number"), chars ("score"),
   chars ("extra_col")]

/-- A course-table schema containing the merge keys (used as a witness). -/
def course_columns_w : List (List Char) :=
  [chars ("course_name"), chars ("hole_number"), chars ("yardage"),
   chars ("score")]

/-! ### Concrete records used to evaluate the expander -/

/-- Scenario A of the specification: par 4, score 5, putts 2, tee ball in
the fairway, approach from 120, first putt 15 feet, second putt 2 feet. -/
def scenarioA : HoleRecord :=
  { round_id := 7, hole_number := 12, par := 4, score := 5, putts := 2,
    gir := false, sand := false,
    tee_ball_location := some ("fairway"), approach_distance := some 120,
    yardage := some 410,
    putt_one_distance := some 15, putt_two_distance := some 2,
    putt_three_distance := none, putt_four_distance := none,
    putt_five_distance := none }

/-- A hole finished in 2 strokes with 1 putt: the final stroke is shot 2. -/
def birdieOnePutt : HoleRecord :=
  { round_id := 1, hole_number := 1, par := 3, score := 2, putts := 1,
    gir := true, sand := false,
    tee_ball_location := none, approach_distance := some 150,
    yardage := some 150,
    putt_one_distance := some 4, putt_two_distance := none,
    putt_three_distance := none, putt_four_distance := none,
    putt_five_distance := none }

/-- A hole finished in 3 strokes with 1 putt: the final stroke satisfies
`shot_number > putts + 1`. -/
def parOnePutt : HoleRecord :=
  { round_id := 1, hole_number := 2, par := 4, score := 3, putts := 1,
    gir := false, sand := false,
    tee_ball_location := some ("fairway"), approach_distance := some 120,
    yardage := some 400,
    putt_one_distance := some 4, putt_two_distance := none,
    putt_three_distance := none, putt_four_distance := none,
    putt_five_distance := none }

/-- A hole whose final stroke reaches the putting branch:
score 3, putts 2. -/
def parTwoPutt : HoleRecord :=
  { round_id := 2, hole_number := 3, par := 3, score := 3, putts := 2,
    gir := true, sand := false,
    tee_ball_location := none, approach_distance := some 160,
    yardage := some 160,
    putt_one_distance := some 10, putt_two_distance := some 1,
    putt_three_distance := none, putt_four_distance := none,
    putt_five_distance := none }

/-- Score 4, putts 3: shot 3 reaches the putting branch with
`putt_number = 2` and both the 2nd and 3rd putt distances recorded. -/
def bogeyThreePutt : HoleRecord :=
  { round_id := 3, hole_number := 5, par := 4, score := 4, putts := 3,
    gir := false, sand := false,
    tee_ball_location := some ("fairway"), approach_distance := some 120,
    yardage := some 400,
    putt_one_distance := some 20, putt_two_distance := some 8,
    putt_three_distance := some 3, putt_four_distance := none,
    putt_five_distance := none }

/-- A par-3 hole with the green hit in regulation. -/
def par3GirHole : HoleRecord :=
  { round_id := 4, hole_number := 8, par := 3, score := 3, putts := 2,
    gir := true, sand := false,
    tee_ball_location := none, approach_distance := some 170,
    yardage := some 170,
    putt_one_distance := some 12, putt_two_distance := some 1,
    putt_three_distance := none, putt_four_distance := none,
    putt_five_distance := none }

/-- An ordinary par-4 hole with score 4. -/
def parFourHole : HoleRecord :=
  { round_id := 5, hole_number := 9, par := 4, score := 4, putts := 2,
    gir := true, sand := false,
    tee_ball_location := some ("rough"), approach_distance := some 140,
    yardage := some 380,
    putt_one_distance := some 25, putt_two_distance := some 2,
    putt_three_distance := none, putt_four_distance := none,
    putt_five_distance := none }

/-- Score 4, putts 3: shot 3 is a non-final putt whose landing distance the
code leaves unresolved without recording any gap entry. -/
def puttGapHole : HoleRecord :=
  { round_id := 6, hole_number := 11, par := 4, score := 4, putts := 3,
    gir := false, sand := false,
    tee_ball_location := some ("fairway"), approach_distance := some 110,
    yardage := some 390,
    putt_one_distance := some 18, putt_two_distance := some 7,
    putt_three_distance := some 2, putt_four_distance := none,
    putt_five_distance := none }

/-- A record violating the assumed invariant `score ≥ putts`:
score 3, putts 5. -/
def invariantBreakHole : HoleRecord :=
  { round_id := 8, hole_number := 14, par := 4, score := 3, putts := 5,
    gir := true, sand := false,
    tee_ball_location := some ("fairway"), approach_distance := some 100,
    yardage := some 350,
    putt_one_distance := some 10, putt_two_distance := some 5,
    putt_three_distance := some 4, putt_four_distance := some 3,
    putt_five_distance := some 2 }

/-! ### Basic facts about the per-shot classifier -/

theorem classifyShot_shot_number (row : HoleRecord) (n : Int) :
    ((classifyShot row n).1).shot_number = n := by
  unfold classifyShot
  repeat' split
  all_goals rfl

theorem classifyShot_record (row : HoleRecord) (n : Int) :
    ((classifyShot row n).1).record = row := by
  unfold classifyShot
  repeat' split
  all_goals rfl

/-- Every gap entry appended while processing `shot_number = n` of `row`
carries that row's identifiers, that shot number, and one of the two
taxonomy strings. -/
theorem classifyShot_gap_fields (row : HoleRecord) (n : Int) :
    ∀ g ∈ (classifyShot row n).2,
      g.round_id = row.round_id ∧ g.hole_number = row.hole_number ∧
      g.shot_number = n ∧
      (g.missing_data = missingDist ∨ g.missing_data = missingBoth) := by
  unfold classifyShot
  repeat' split
  all_goals intro g hg
  all_goals simp_all

/-- One loop iteration appends no gap entry or a single one for shot `n`. -/
theorem classifyShot_gap_shotnums (row : HoleRecord) (n : Int) :
    ((classifyShot row n).2).map (fun g => g.shot_number) = [] ∨
    ((classifyShot row n).2).map (fun g => g.shot_number) = [n] := by
  unfold classifyShot
  repeat' split
  all_goals simp

theorem mem_shotNumbers {s k : Int} : k ∈ shotNumbers s ↔ 1 ≤ k ∧ k ≤ s := by
  unfold shotNumbers
  rw [List.mem_map]
  constructor
  · rintro ⟨i, hi, rfl⟩
    rw [List.mem_range] at hi
    omega
  · rintro ⟨h1, h2⟩
    exact ⟨(k - 1).toNat, List.mem_range.mpr (by omega), by omega⟩

theorem shotNumbers_nodup (s : Int) : (shotNumbers s).Nodup := by
  refine (List.nodup_range _).map ?_
  intro a b hab
  simp only [] at hab
  omega

theorem shotNumbers_pairwise (s : Int) : (shotNumbers s).Pairwise (· < ·) := by
  refine (List.pairwise_lt_range _).map _ ?_
  intro a b hab
  omega

theorem strokeRows_length (row : HoleRecord) :
    (strokeRows row).length = row.score.toNat := by
  unfold strokeRows shotNumbers
  rw [List.length_map, List.length_map, List.length_range]

theorem strokeRows_map_shot_number (row : HoleRecord) :
    (strokeRows row).map (fun sr => sr.shot_number) = shotNumbers row.score := by
  unfold strokeRows
  rw [List.map_map]
  exact (List.map_congr_left (fun n _ => classifyShot_shot_number row n)).trans
    (List.map_id _)

theorem strokeRows_getElem (row : HoleRecord) (i : Nat) (h : i < row.score.toNat) :
    (strokeRows row)[i]? = some (classifyShot row ((i : Int) + 1)).1 := by
  unfold strokeRows shotNumbers
  rw [List.getElem?_map, List.getElem?_map, List.getElem?_range h]
  rfl

theorem mem_strokeRows {row : HoleRecord} {sr : StrokeRow} :
    sr ∈ strokeRows row ↔
      ∃ n : Int, (1 ≤ n ∧ n ≤ row.score) ∧ sr = (classifyShot row n).1 := by
  unfold strokeRows
  rw [List.mem_map]
  constructor
  · rintro ⟨n, hn, rfl⟩
    exact ⟨n, mem_shotNumbers.mp hn, rfl⟩
  · rintro ⟨n, hn, rfl⟩
    exact ⟨n, mem_shotNumbers.mpr hn, rfl⟩

/-! ### Locating the gap entries of a given shot -/

theorem gaps_filter_not_mem (row : HoleRecord) (k : Int) (l : List Int)
    (hk : k ∉ l) :
    ((l.map (fun n => (classifyShot row n).2)).flatten).filter
        (fun g => g.shot_number = k) = [] := by
  induction l with
  | nil => rfl
  | cons a l ih =>
    have ha : a ≠ k := fun h => hk (h ▸ List.mem_cons_self a l)
    have hk' : k ∉ l := fun h => hk (List.mem_cons_of_mem a h)
    simp only [List.map_cons, List.flatten_cons, List.filter_append, ih hk',
      List.append_nil]
    rw [List.filter_eq_nil_iff]
    intro g hg
    have := (classifyShot_gap_fields row a g hg).2.2.1
    simp [this, ha]

theorem gaps_filter_eq (row : HoleRecord) (k : Int) (l : List Int)
    (hnd : l.Nodup) (hk : k ∈ l) :
    ((l.map (fun n => (classifyShot row n).2)).flatten).filter
        (fun g => g.shot_number = k) = (classifyShot row k).2 := by
  induction l with
  | nil => cases hk
  | cons a l ih =>
    obtain ⟨ha, hnd'⟩ := List.nodup_cons.mp hnd
    simp only [List.map_cons, List.flatten_cons, List.filter_append]
    rcases List.mem_cons.mp hk with h | h
    · subst h
      rw [gaps_filter_not_mem row k l ha, List.append_nil]
      rw [List.filter_eq_self]
      intro g hg
      have := (classifyShot_gap_fields row k g hg).2.2.1
      simp [this]
    · rw [ih hnd' h]
      have hak : a ≠ k := fun hh => ha (hh ▸ h)
      have : ((classifyShot row a).2).filter (fun g => g.shot_number = k) = [] := by
        rw [List.filter_eq_nil_iff]
        intro g hg
        have := (classifyShot_gap_fields row a g hg).2.2.1
        simp [this, hak]
      rw [this, List.nil_append]

/-- The gap entries of `row` for shot `k` (with `1 ≤ k ≤ score`) are exactly
the entries the `k`-th loop iteration appends. -/
theorem manualInputFor_filter (row : HoleRecord) (k : Int)
    (h1 : 1 ≤ k) (h2 : k ≤ row.score) :
    (manualInputFor row).filter (fun g => g.shot_number = k) =
      (classifyShot row k).2 := by
  unfold manualInputFor
  exact gaps_filter_eq row k _ (shotNumbers_nodup _) (mem_shotNumbers.mpr ⟨h1, h2⟩)

/-! ### Evaluating single branches of the classifier -/

/-- Shot 2 is classified by its own branch unconditionally: starting fields
from `tee_ball_location` / `approach_distance`, landing fields `None`, one
"both missing" gap entry. -/
theorem classifyShot_two (row : HoleRecord) :
    classifyShot row 2 =
      (⟨row, 2, row.tee_ball_location.getD ("unknown"), row.approach_distance,
        none, none⟩,
       [⟨row.round_id, row.hole_number, 2, missingBoth⟩]) := by
  norm_num [classifyShot]

/-- When the final stroke reaches the putting branch (`3 ≤ score ≤ putts + 1`),
its `putt_number` equals `putts`, so the `else` arm fires: landing lie
`"hole"`, landing distance `0`. -/
theorem classifyShot_final (row : HoleRecord) (h3 : 3 ≤ row.score)
    (hle : row.score ≤ row.putts + 1) :
    classifyShot row row.score =
      (⟨row, row.score, "green", getItem row (puttDistanceCol row.putts),
        some ("hole"), some 0⟩, []) := by
  have h1 : ¬(row.score = 1) := by omega
  have h2 : ¬(row.score = 2) := by omega
  have h4 : ¬(row.score > row.putts + 1) := by omega
  have h5 : puttNumber row row.score = row.putts := by
    unfold puttNumber
    omega
  simp [classifyShot, h1, h2, h4, h5]

/-- Par-3 tee shot with `gir == True`: landing on the green at
`putt_one_distance`, no gap entry. -/
theorem classifyShot_one_par3_gir (row : HoleRecord) (hp : row.par = 3)
    (hg : row.gir = true) :
    classifyShot row 1 =
      (⟨row, 1, "tee", tee_shot_distance row, some ("green"),
        row.putt_one_distance⟩, []) := by
  simp [classifyShot, hp, hg]

/-- Par-3 tee shot with `gir == False` and `sand == False`: both landing
fields `None` and one "both missing" gap entry. -/
theorem classifyShot_one_par3_miss (row : HoleRecord) (hp : row.par = 3)
    (hg : row.gir = false) (hs : row.sand = false) :
    classifyShot row 1 =
      (⟨row, 1, "tee", tee_shot_distance row, none, none⟩,
       [⟨row.round_id, row.hole_number, 1, missingBoth⟩]) := by
  simp [classifyShot, hp, hg, hs]

/-- The shot numbers named by a record's gap entries form a sublist of the
iterated shot numbers (each iteration appends at most one entry, tagged with
its own shot number). -/
theorem gapShotNumbers_sublist (row : HoleRecord) (l : List Int) :
    (((l.map (fun n => (classifyShot row n).2)).flatten).map
        (fun g => g.shot_number)).Sublist l := by
  induction l with
  | nil => simp
  | cons a l ih =>
    simp only [List.map_cons, List.flatten_cons, List.map_append]
    rcases classifyShot_gap_shotnums row a with h | h
    · rw [h, List.nil_append]
      exact ih.cons a
    · rw [h]
      exact ih.cons₂ a

/-- Unrolling the outer loop of `create_shot_by_shot_df` from an arbitrary
pair of accumulators. -/
theorem create_shot_by_shot_foldl (rows : List HoleRecord) :
    ∀ a : List StrokeRow, ∀ b : List GapEntry,
      rows.foldl
        (fun acc row => (acc.1 ++ strokeRows row, acc.2 ++ manualInputFor row))
        (a, b) =
      (a ++ (rows.map strokeRows).flatten, b ++ (rows.map manualInputFor).flatten) := by
  induction rows with
  | nil =>
    intro a b
    simp
  | cons r rows ih =>
    intro a b
    simp only [List.foldl_cons, List.map_cons, List.flatten_cons, ih,
      List.append_assoc]

/-! ### Facts about the schema joiner's column sets -/

/-- No allow-listed column name ends in `_course`. -/
theorem columns_to_keep_no_course_suffix :
    ∀ x ∈ columns_to_keep, ¬ suffix_course.reverse <+: x.reverse := by
  decide

/-- No allow-listed column name is a `_course`-renamed column. -/
theorem columns_to_keep_ne_suffixed (x : List Char) (hx : x ∈ columns_to_keep)
    (y : List Char) : x ≠ y ++ suffix_course := by
  intro h
  apply columns_to_keep_no_course_suffix x hx
  rw [h, List.reverse_append]
  exact List.prefix_append _ _

/-! ### The claims -/

/-- Claim C1: on the Scenario A record (par 4, score 5, putts 2, fairway tee
ball, approach 120, putts 15 and 2) the spec claims shot 3 starts at
"approach" and shots 4 and 5 are the putts (green 15 → green 2 → hole 0).
The code instead sends shot 3 to the putting branch (`putt_number = 0`,
starting lie "green") and shots 4 and 5 — the actual putts — to the
"approach" branch, because the guard compares `shot_number` with
`putts + 1` instead of `score - putts`.  This theorem evaluates the
embedded code on that exact record. -/
theorem C1_scenarioA_eval :
    (strokeRows scenarioA).map (fun sr =>
      (sr.shot_number, sr.starting_location_lie, sr.starting_location_distance,
       sr.landing_location_lie, sr.landing_location_distance)) =
      [(1, "tee", some 410, some ("fairway"), some 120),
       (2, "fairway", some 120, none, none),
       (3, "green", none, some ("green"), none),
       (4, "approach", none, none, none),
       (5, "approach", none, none, none)] ∧
    (manualInputFor scenarioA).map (fun g => (g.shot_number, g.missing_data)) =
      [(2, missingBoth), (4, missingBoth), (5, missingBoth)] := by
  decide

/-- Claim C2, counterexample: the claim quantifies over every HoleRecord with
`putts ≥ 1`, but with score 2 / putts 1 the final stroke is handled by the
shot-2 branch (landing fields `None`, not hole/0), and with score 3 /
putts 1 by the `shot_number > putts + 1` branch (also `None`). -/
theorem C2_counterexample :
    (1 ≤ birdieOnePutt.putts ∧
      ((strokeRows birdieOnePutt).getLast?).map (fun sr =>
        (sr.shot_number, sr.landing_location_lie, sr.landing_location_distance)) =
        some (2, none, none)) ∧
    (1 ≤ parOnePutt.putts ∧
      ((strokeRows parOnePutt).getLast?).map (fun sr =>
        (sr.shot_number, sr.landing_location_lie, sr.landing_location_distance)) =
        some (3, none, none)) := by
  decide

/-- Claim C2, amended: for every HoleRecord whose final stroke reaches the
putting branch — `3 ≤ score ≤ putts + 1` — the StrokeRow with
`shot_number = score` exists and has landing lie `"hole"` and landing
distance exactly `0`. -/
theorem C2_final_putt_holed (r : HoleRecord) (h3 : 3 ≤ r.score)
    (hle : r.score ≤ r.putts + 1) :
    (∃ sr ∈ strokeRows r, sr.shot_number = r.score) ∧
    ∀ sr ∈ strokeRows r, sr.shot_number = r.score →
      sr.landing_location_lie = some ("hole") ∧
      sr.landing_location_distance = some 0 := by
  constructor
  · exact ⟨(classifyShot r r.score).1,
      mem_strokeRows.mpr ⟨r.score, ⟨by omega, le_refl _⟩, rfl⟩,
      classifyShot_shot_number r r.score⟩
  · intro sr hsr hnum
    obtain ⟨n, ⟨hn1, hn2⟩, rfl⟩ := mem_strokeRows.mp hsr
    rw [classifyShot_shot_number] at hnum
    subst hnum
    rw [classifyShot_final r h3 hle]
    exact ⟨rfl, rfl⟩

/-- Claim C2, witness: the amended statement instantiated at a concrete
record with score 3, putts 2. -/
theorem C2_final_putt_holed_witness :
    3 ≤ parTwoPutt.score ∧ parTwoPutt.score ≤ parTwoPutt.putts + 1 ∧
    ((∃ sr ∈ strokeRows parTwoPutt, sr.shot_number = parTwoPutt.score) ∧
     ∀ sr ∈ strokeRows parTwoPutt, sr.shot_number = parTwoPutt.score →
       sr.landing_location_lie = some ("hole") ∧
       sr.landing_location_distance = some 0) :=
  ⟨by decide, by decide,
   C2_final_putt_holed parTwoPutt (by decide) (by decide)⟩

/-- Claim C3: with score 4 and putts 3, shot 3 reaches the putting branch
with `putt_number = 2 < putts`, and the record has its 2nd and 3rd putt
distances present (8 and 3).  The claim says the starting distance is 8 and
the landing distance 3; the code yields `None` for both, because the branch
looks up the fabricated column names `putt_2_distance` / `putt_3_distance`,
which never match the real columns `putt_two_distance` /
`putt_three_distance`. -/
theorem C3_putt_lookup_eval :
    bogeyThreePutt.putt_two_distance = some 8 ∧
    bogeyThreePutt.putt_three_distance = some 3 ∧
    puttNumber bogeyThreePutt 3 = 2 ∧ (2 : Int) < bogeyThreePutt.putts ∧
    ((strokeRows bogeyThreePutt)[2]?).map (fun sr =>
      (sr.shot_number, sr.starting_location_lie, sr.starting_location_distance,
       sr.landing_location_lie, sr.landing_location_distance)) =
      some (3, "green", none, some ("green"), none) := by
  decide

/-- Claim C4: every HoleRecord yields exactly `int(score)` StrokeRows, whose
`shot_number`s are the contiguous sequence `1..score` (the iterated
`range(1, int(score) + 1)`), each value occurring exactly once. -/
theorem C4_row_count (r : HoleRecord) :
    (strokeRows r).length = r.score.toNat ∧
    (strokeRows r).map (fun sr => sr.shot_number) = shotNumbers r.score ∧
    ∀ k : Int, ((strokeRows r).map (fun sr => sr.shot_number)).count k =
      if 1 ≤ k ∧ k ≤ r.score then 1 else 0 := by
  refine ⟨strokeRows_length r, strokeRows_map_shot_number r, ?_⟩
  intro k
  rw [strokeRows_map_shot_number]
  by_cases h : 1 ≤ k ∧ k ≤ r.score
  · rw [if_pos h]
    exact List.count_eq_one_of_mem (shotNumbers_nodup _) (mem_shotNumbers.mpr h)
  · rw [if_neg h]
    exact List.count_eq_zero_of_not_mem (fun hm => h (mem_shotNumbers.mp hm))

/-- Claim C5: on a par-3 record with at least one stroke, if `gir` is true
the tee shot lands on the green and no gap entry is recorded for shot 1;
if `gir` and `sand` are both false, exactly one "both missing" gap entry is
recorded for shot 1. -/
theorem C5_par3_tee (r : HoleRecord) (hs : 1 ≤ r.score) (hp : r.par = 3) :
    (r.gir = true →
      ((strokeRows r)[0]?).map (fun sr => sr.landing_location_lie) =
        some (some ("green")) ∧
      (manualInputFor r).filter (fun g => g.shot_number = 1) = []) ∧
    (r.gir = false → r.sand = false →
      (manualInputFor r).filter (fun g => g.shot_number = 1) =
        [⟨r.round_id, r.hole_number, 1, missingBoth⟩]) := by
  have h0 : (0 : Nat) < r.score.toNat := by omega
  have hone : ((0 : Nat) : Int) + 1 = 1 := by norm_num
  constructor
  · intro hg
    constructor
    · rw [strokeRows_getElem r 0 h0, hone, classifyShot_one_par3_gir r hp hg]
      rfl
    · rw [manualInputFor_filter r 1 (by norm_num) hs,
        classifyShot_one_par3_gir r hp hg]
  · intro hg hsand
    rw [manualInputFor_filter r 1 (by norm_num) hs,
      classifyShot_one_par3_miss r hp hg hsand]

/-- Claim C5, witness: the statement instantiated at a concrete par-3
record with `gir = true`. -/
theorem C5_par3_tee_witness :
    1 ≤ par3GirHole.score ∧ par3GirHole.par = 3 ∧
    ((par3GirHole.gir = true →
      ((strokeRows par3GirHole)[0]?).map (fun sr => sr.landing_location_lie) =
        some (some ("green")) ∧
      (manualInputFor par3GirHole).filter (fun g => g.shot_number = 1) = []) ∧
     (par3GirHole.gir = false → par3GirHole.sand = false →
      (manualInputFor par3GirHole).filter (fun g => g.shot_number = 1) =
        [⟨par3GirHole.round_id, par3GirHole.hole_number, 1, missingBoth⟩])) :=
  ⟨by decide, by decide, C5_par3_tee par3GirHole (by decide) (by decide)⟩

/-- Claim C6: for every record with score ≥ 2 — whatever its other fields —
shot 2 has both landing fields unknown and exactly one "both missing" gap
entry is recorded for shot 2. -/
theorem C6_shot2_gap (r : HoleRecord) (hs : 2 ≤ r.score) :
    ((strokeRows r)[1]?).map (fun sr =>
      (sr.landing_location_lie, sr.landing_location_distance)) =
      some (none, none) ∧
    (manualInputFor r).filter (fun g => g.shot_number = 2) =
      [⟨r.round_id, r.hole_number, 2, missingBoth⟩] := by
  have h1 : (1 : Nat) < r.score.toNat := by omega
  have htwo : ((1 : Nat) : Int) + 1 = 2 := by norm_num
  constructor
  · rw [strokeRows_getElem r 1 h1, htwo, classifyShot_two]
    rfl
  · rw [manualInputFor_filter r 2 (by norm_num) hs, classifyShot_two]

/-- Claim C6, witness: the statement instantiated at a concrete par-4
record. -/
theorem C6_shot2_gap_witness :
    2 ≤ parFourHole.score ∧
    (((strokeRows parFourHole)[1]?).map (fun sr =>
      (sr.landing_location_lie, sr.landing_location_distance)) =
      some (none, none) ∧
    (manualInputFor parFourHole).filter (fun g => g.shot_number = 2) =
      [⟨parFourHole.round_id, parFourHole.hole_number, 2, missingBoth⟩]) :=
  ⟨by decide, C6_shot2_gap parFourHole (by decide)⟩

/-- Claim C7, counterexample: the claim says every unresolved landing field
produces a gap entry, but on a record with score 4 and putts 3 the code
leaves shot 3's landing distance unresolved (a non-final putt whose
fabricated `putt_3_distance` lookup misses) while appending no gap entry
for shot 3. -/
theorem C7_counterexample :
    ((strokeRows puttGapHole)[2]?).map (fun sr =>
      (sr.shot_number, sr.landing_location_lie, sr.landing_location_distance)) =
      some (3, some ("green"), none) ∧
    (manualInputFor puttGapHole).filter (fun g => g.shot_number = 3) = [] := by
  decide

/-- Claim C7, amended: every gap entry the expander appends carries the
record's `round_id` and `hole_number`, a `shot_number` within `1..score`,
and a `missing_data` drawn from the two-string taxonomy; and the entries
are emitted in stroke order (their shot numbers strictly increase).  The
converse direction of the original claim is refuted by the
counterexample. -/
theorem C7_gap_wellformed (r : HoleRecord) :
    (∀ g ∈ manualInputFor r,
      g.round_id = r.round_id ∧ g.hole_number = r.hole_number ∧
      1 ≤ g.shot_number ∧ g.shot_number ≤ r.score ∧
      (g.missing_data = missingDist ∨ g.missing_data = missingBoth)) ∧
    ((manualInputFor r).map (fun g => g.shot_number)).Pairwise (· < ·) := by
  constructor
  · intro g hg
    unfold manualInputFor at hg
    rw [List.mem_flatten] at hg
    obtain ⟨s, hs, hgs⟩ := hg
    rw [List.mem_map] at hs
    obtain ⟨n, hn, rfl⟩ := hs
    obtain ⟨hn1, hn2⟩ := mem_shotNumbers.mp hn
    obtain ⟨h1, h2, h3, h4⟩ := classifyShot_gap_fields r n g hgs
    exact ⟨h1, h2, by omega, by omega, h4⟩
  · exact List.Pairwise.sublist (gapShotNumbers_sublist r _)
      (shotNumbers_pairwise r.score)

/-- Claim C7, witness: the field part of the amended statement applied to a
concrete gap entry of a concrete record. -/
theorem C7_gap_wellformed_witness :
    (⟨6, 11, 2, missingBoth⟩ : GapEntry) ∈ manualInputFor puttGapHole ∧
    ((⟨6, 11, 2, missingBoth⟩ : GapEntry).round_id = puttGapHole.round_id ∧
     (⟨6, 11, 2, missingBoth⟩ : GapEntry).hole_number = puttGapHole.hole_number ∧
     1 ≤ (⟨6, 11, 2, missingBoth⟩ : GapEntry).shot_number ∧
     (⟨6, 11, 2, missingBoth⟩ : GapEntry).shot_number ≤ puttGapHole.score ∧
     ((⟨6, 11, 2, missingBoth⟩ : GapEntry).missing_data = missingDist ∨
      (⟨6, 11, 2, missingBoth⟩ : GapEntry).missing_data = missingBoth)) :=
  ⟨by decide, (C7_gap_wellformed puttGapHole).1 _ (by decide)⟩

/-- Claim C8: the Schema Joiner is idempotent on its column projection:
re-joining its own output with the same course table and projecting again
yields the same column list. -/
theorem C8_schema_idempotent (p c : List (List Char))
    (_hp : merge_keys ⊆ p) (_hc : merge_keys ⊆ c) :
    create_analysis_df_columns (create_analysis_df_columns p c) c =
      create_analysis_df_columns p c := by
  unfold create_analysis_df_columns
  apply List.filter_congr
  intro x hx
  rw [decide_eq_decide]
  constructor
  · intro hmem
    unfold mergeColumns at hmem
    rw [List.mem_append] at hmem
    rcases hmem with hmem | hmem
    · exact of_decide_eq_true (List.mem_filter.mp hmem).2
    · rw [List.mem_map] at hmem
      obtain ⟨y, hy, hxy⟩ := hmem
      rw [List.mem_filter] at hy
      obtain ⟨hyc, hyk⟩ := hy
      split at hxy
      · exact absurd hxy.symm (columns_to_keep_ne_suffixed x hx y)
      · subst hxy
        unfold mergeColumns
        rw [List.mem_append]
        by_cases hyp : y ∈ p
        · exact Or.inl hyp
        · exact Or.inr
            (List.mem_map.mpr ⟨y, List.mem_filter.mpr ⟨hyc, hyk⟩, if_neg hyp⟩)
  · intro hmem
    unfold mergeColumns
    rw [List.mem_append]
    exact Or.inl (List.mem_filter.mpr ⟨hx, decide_eq_true hmem⟩)

/-- Claim C8, witness: idempotence instantiated at concrete schemas that
contain the merge keys and overlap on a non-key column. -/
theorem C8_schema_idempotent_witness :
    merge_keys ⊆ player_columns_w ∧ merge_keys ⊆ course_columns_w ∧
    create_analysis_df_columns
        (create_analysis_df_columns player_columns_w course_columns_w)
        course_columns_w =
      create_analysis_df_columns player_columns_w course_columns_w :=
  ⟨by decide, by decide,
   C8_schema_idempotent player_columns_w course_columns_w (by decide) (by decide)⟩

/-- Claim C9: `create_shot_by_shot_df` is stateless across holes: its two
outputs are the concatenations, in input row order, of each record's own
stroke rows and gap entries, each a function of that record alone. -/
theorem C9_stateless (rows : List HoleRecord) :
    create_shot_by_shot_df rows =
      ((rows.map strokeRows).flatten, (rows.map manualInputFor).flatten) := by
  unfold create_shot_by_shot_df
  rw [create_shot_by_shot_foldl rows [] []]
  simp

/-- Claim C10: a record violating the assumed invariant `score ≥ putts`
still expands totally: exactly `int(score)` StrokeRows are produced, with
shot numbers `1..score`, every row carrying the record (the embedding is a
total function, mirroring that no lookup in the source can raise there). -/
theorem C10_no_crash (r : HoleRecord) (_h : r.score < r.putts) :
    (strokeRows r).length = r.score.toNat ∧
    (strokeRows r).map (fun sr => sr.shot_number) = shotNumbers r.score ∧
    ∀ sr ∈ strokeRows r, sr.record = r := by
  refine ⟨strokeRows_length r, strokeRows_map_shot_number r, ?_⟩
  intro sr hsr
  obtain ⟨n, _, rfl⟩ := mem_strokeRows.mp hsr
  exact classifyShot_record r n

/-- Claim C10, witness: the statement instantiated at a record with
score 3 and putts 5. -/
theorem C10_no_crash_witness :
    invariantBreakHole.score < invariantBreakHole.putts ∧
    ((strokeRows invariantBreakHole).length = invariantBreakHole.score.toNat ∧
     (strokeRows invariantBreakHole).map (fun sr => sr.shot_number) =
       shotNumbers invariantBreakHole.score ∧
     ∀ sr ∈ strokeRows invariantBreakHole, sr.record = invariantBreakHole) :=
  ⟨by decide, C10_no_crash invariantBreakHole (by decide)⟩

end StrokesGained
